import Mathlib

/-!
Verification of docboy.py: a three-stage threaded pipeline that scans files
for undocumented public methods, looks up authorship via git blame, and
emails the author.  Python primitives (str.strip, str.split, Queue,
task_done/join, the author-mail regex) are embedded shallowly below; each
definition mirrors the source construct it is named after.  All string
operations are implemented by structural recursion over character lists so
that concrete runs reduce inside the kernel.
-/

namespace Docboy

/-- Character set stripped and split on by Python str.strip() / str.split()
with no arguments: space, tab, newline, carriage return, vertical tab,
form feed. -/
def pyIsSpace (c : Char) : Bool :=
  c == ' ' || c == '\t' || c == '\n' || c == '\r' || c == '\x0b' || c == '\x0c'

/-- Python str.strip(): remove leading and trailing whitespace. -/
def pyStrip (s : String) : String :=
  String.mk (((s.toList.dropWhile pyIsSpace).reverse.dropWhile pyIsSpace).reverse)

/-- Accumulator loop for whitespace splitting: acc holds the current token
reversed; whitespace flushes it, end of input flushes the remainder. -/
def splitWsAux : List Char → List Char → List String
  | [], acc => if acc.isEmpty then [] else [String.mk acc.reverse]
  | c :: cs, acc =>
    if pyIsSpace c then
      if acc.isEmpty then splitWsAux cs [] else String.mk acc.reverse :: splitWsAux cs []
    else splitWsAux cs (c :: acc)

/-- Python str.split() with no argument: split on runs of whitespace,
discarding empty pieces. -/
def pySplitWs (s : String) : List String :=
  splitWsAux s.toList []

/-- Accumulator loop for single-character splitting. -/
def splitOnCharAux (sep : Char) : List Char → List Char → List String
  | [], acc => [String.mk acc.reverse]
  | c :: cs, acc =>
    if c == sep then String.mk acc.reverse :: splitOnCharAux sep cs []
    else splitOnCharAux sep cs (c :: acc)

/-- Python str.split(sep) for a one-character separator, as used on the
blame text (split on newline) and on the email address (split on the at
sign).  The empty string splits to one empty piece, matching Python. -/
def pySplitChar (s : String) (sep : Char) : List String :=
  splitOnCharAux sep s.toList []

/-- Boolean list head test by structural recursion (kernel-reducible). -/
def listStartsWith : List Char → List Char → Bool
  | _, [] => true
  | [], _ :: _ => false
  | c :: cs, d :: ds => c == d && listStartsWith cs ds

/-- Python str.startswith. -/
def strStartsWith (s pre : String) : Bool :=
  listStartsWith s.toList pre.toList

/-- Python str.endswith. -/
def strEndsWith (s suf : String) : Bool :=
  listStartsWith s.toList.reverse suf.toList.reverse

/-- Python s[n:] restricted to dropping the first n characters. -/
def strDrop (s : String) (n : Nat) : String :=
  String.mk (s.toList.drop n)

/-- Python s[:-n] restricted to dropping the last n characters. -/
def strDropRight (s : String) (n : Nat) : String :=
  String.mk (s.toList.take (s.toList.length - n))

/-- Model of Python Queue.Queue as used in docboy.py main(): a FIFO buffer
plus the unfinished_tasks counter.  put appends and increments the counter;
get removes the head and leaves the counter alone; task_done decrements the
counter (ValueError, modelled as none, when it is already zero); join
returns exactly when the counter is zero. -/
structure PyQueue (α : Type) where
  items : List α
  unfinished_tasks : Nat
deriving DecidableEq, Repr

/-- Queue.put(item): append to the tail and increment unfinished_tasks. -/
def PyQueue.put {α : Type} (q : PyQueue α) (x : α) : PyQueue α :=
  ⟨q.items ++ [x], q.unfinished_tasks + 1⟩

/-- Queue.get(): blocking dequeue of the head.  none models the blocked
state on an empty queue; unfinished_tasks is unchanged by get. -/
def PyQueue.get {α : Type} (q : PyQueue α) : Option (α × PyQueue α) :=
  match q.items with
  | [] => none
  | x :: xs => some (x, ⟨xs, q.unfinished_tasks⟩)

/-- Queue.task_done(): decrement unfinished_tasks; raises ValueError
(modelled as none) when called with the counter already at zero. -/
def PyQueue.task_done {α : Type} (q : PyQueue α) : Option (PyQueue α) :=
  match q.unfinished_tasks with
  | 0 => none
  | u + 1 => some ⟨q.items, u⟩

/-- Queue.join(): returns exactly when unfinished_tasks is zero (otherwise
it blocks the caller). -/
def PyQueue.joinReturns {α : Type} (q : PyQueue α) : Bool :=
  q.unfinished_tasks == 0

/-- One operation applied to a work queue by some producer or worker. -/
inductive QOp where
  | enq (x : Nat)
  | deq
  | done
deriving DecidableEq, Repr

/-- Apply one queue operation; none when the operation blocks (get on an
empty queue) or raises (task_done past zero). -/
def applyOp (q : PyQueue Nat) : QOp → Option (PyQueue Nat)
  | .enq x => some (q.put x)
  | .deq => (q.get).map (fun p => p.2)
  | .done => q.task_done

/-- Run a sequence of queue operations from a starting state. -/
def runOps : List QOp → PyQueue Nat → Option (PyQueue Nat)
  | [], q => some q
  | op :: ops, q => (applyOp q op).bind (runOps ops)

/-- Number of enqueues in an operation sequence. -/
def cEnq (ops : List QOp) : Nat :=
  ops.countP fun op => match op with | .enq _ => true | _ => false

/-- Number of dequeues in an operation sequence. -/
def cDeq (ops : List QOp) : Nat :=
  ops.countP fun op => match op with | .deq => true | _ => false

/-- Number of task_done calls in an operation sequence. -/
def cDone (ops : List QOp) : Nat :=
  ops.countP fun op => match op with | .done => true | _ => false

/-- Delimiter used to detect whether or not a method is commented. -/
def COMMENT_END : String := "*/"

/-- The sender of the email. -/
def ME : String := "ceasar@fb.com"

/-- Whether or not to actually send emails. -/
def DRY_RUN : Bool := false

/-- The token-level yield condition from the body of
gen_undocumented_public_methods: the stripped line has a first token equal
to "public", contains the token "function", and no token starts with "__".
The source writes this as three nested ifs; the conjunction is the same
test. -/
def yieldCond (line : String) : Bool :=
  let tokens := pySplitWs (pyStrip line)
  0 < tokens.length && tokens.headD "" == "public" &&
    tokens.contains "function" && !(tokens.any (fun t => strStartsWith t "__"))

/-- The loop of gen_undocumented_public_methods: linenum is the 0-based
enumerate counter, hasComment the flag set exactly when the previous line
stripped to COMMENT_END. -/
def genUndocGo : Nat → Bool → List String → List (Nat × String)
  | _, _, [] => []
  | linenum, hasComment, line :: rest =>
    if pyStrip line == COMMENT_END then
      genUndocGo (linenum + 1) true rest
    else
      if !hasComment && yieldCond line then
        (linenum, line) :: genUndocGo (linenum + 1) false rest
      else
        genUndocGo (linenum + 1) false rest

/-- gen_undocumented_public_methods(filename), with the file contents given
as the list of its lines: yields (linenum, line) for every undocumented
public method found. -/
def gen_undocumented_public_methods (contents : List String) : List (Nat × String) :=
  genUndocGo 0 false contents

/-- The hasComment flag in force when the loop reaches index j, expressed
negatively: true when no end-of-comment marker immediately precedes.  At
index 0 it is the negation of the incoming flag; at index k+1 it asks
whether line k strips to COMMENT_END. -/
def prevNotCommentEnd (hc : Bool) (ls : List String) : Nat → Bool
  | 0 => !hc
  | k + 1 => !(pyStrip (ls.getD k "") == COMMENT_END)

/-- One cell of the index-based characterisation of the scan: what the scan
emits for index j of the line list. -/
def specCell (i0 : Nat) (hc : Bool) (ls : List String) (j : Nat) : Option (Nat × String) :=
  match ls.get? j with
  | none => none
  | some l => if yieldCond l && prevNotCommentEnd hc ls j then some (i0 + j, l) else none

/-- The amended scan contract, stated by line index: index j is reported,
carrying its own line, exactly when the token condition holds (first token
"public", some token "function", no token starting with "__") and either
j = 0 or line j-1, blank lines included, does not strip to the
end-of-comment marker. -/
def genUndocSpecAmended (contents : List String) : List (Nat × String) :=
  (List.range contents.length).filterMap (specCell 0 false contents)

/-- The scan contract exactly as the claim words it: a line is reported
exactly when its first whitespace-delimited token is "public" and the
immediately preceding non-blank line is not the end-of-comment marker. -/
def specScanClaim (contents : List String) : List (Nat × String) :=
  (List.range contents.length).filterMap (fun j =>
    match contents.get? j with
    | none => none
    | some l =>
      if (pySplitWs (pyStrip l)).headD "" == "public" &&
          (match (contents.take j).reverse.find? (fun p => pyStrip p != "") with
           | none => true
           | some p => !(pyStrip p == COMMENT_END)) then some (j, l) else none)

/-- Events emitted by one iteration of fileworker: one put into the lines
queue per scan result, then one task_done on the filenames queue. -/
inductive FWEvent where
  | putLine (filename : String) (line_number : Nat)
  | fileDone
deriving DecidableEq, Repr

/-- One fileworker loop iteration, as its event trace: the source loops
over gen_undocumented_public_methods(filename) putting (filename,
line_number) into lines, then calls filenames.task_done() once. -/
def fileworkerEvents (filename : String) (contents : List String) : List FWEvent :=
  (gen_undocumented_public_methods contents).map (fun r => FWEvent.putLine filename r.1) ++
    [FWEvent.fileDone]

/-- Recogniser for put events. -/
def isPutLine : FWEvent → Bool
  | .putLine _ _ => true
  | _ => false

/-- Recogniser for task_done events. -/
def isFileDone : FWEvent → Bool
  | .fileDone => true
  | _ => false

/-- Python exceptions that can surface in the workers and helpers. -/
inductive PyErr where
  | osError
  | nameError
  | valueError
  | lookupError
  | smtpError
deriving DecidableEq, Repr

/-- Outcome of the git blame subprocess: its exit status and captured
standard output. -/
structure SubprocResult where
  exitCode : Int
  stdout : String
deriving DecidableEq, Repr

/-- The body of _raw_run: Popen plus p.stdout.read().  read() always
returns a string (empty at worst) and the exit status is never examined;
the Option there records the possibility get_blame checks for, which never
occurs. -/
def raw_run (r : SubprocResult) : Option String :=
  some r.stdout

/-- get_blame(filename, line_number): build the git blame argument list,
run it through _raw_run, raise ValueError if the captured output is None
(it never is), and otherwise return the raw blame text unchanged. -/
def get_blame (filename : String) (line_number : Nat) (r : SubprocResult) :
    Except PyErr String :=
  match raw_run r with
  | none => .error .valueError
  | some blame => .ok blame

/-- Model of re.match against EXTRACT_EMAIL_PATTERN, the anchored pattern
"author-mail <(.+)>": the line must start with "author-mail <" (13
characters), end with ">", and the greedy group between them must be
non-empty and newline-free; the group runs to the final ">" of the line. -/
def extractAuthorMail (line : String) : Option String :=
  let group := strDropRight (strDrop line 13) 1
  if strStartsWith line "author-mail <" && strEndsWith line ">" &&
      group != "" && !(group.toList.contains '\n') then some group
  else none

/-- The extraction loop at the top of mailworker: iterate over the lines of
the blame text and keep the first author-mail match. -/
def firstAuthorMail (blame : String) : Option String :=
  (pySplitChar blame '\n').findSome? extractAuthorMail

/-- One call to server.sendmail(ME, [email], mail.as_string()), recording
the sender, the recipient address, and the recipient name, rewritten file
path and line number that went into the message body. -/
structure SendEvent where
  sender : String
  rcpt : String
  recipientName : String
  file : String
  line : Nat
deriving DecidableEq, Repr

/-- One mailworker iteration body after the get, operating on the local
variable email which persists across iterations of the while loop inside
one thread (emailState).  If no blame line matches the pattern, the
variable keeps its previous value; reading it with no previous value
raises NameError.  On success the worker sends one email under the lock
and returns the new value of the local. -/
def mailworkerStep (emailState : Option String) (blame filename : String)
    (line_number : Nat) : Except PyErr (SendEvent × String) :=
  let newEmail := match firstAuthorMail blame with
    | some e => some e
    | none => emailState
  match newEmail with
  | none => .error .nameError
  | some email =>
    .ok (⟨ME, email, (pySplitChar email '@').headD "", "www" ++ strDrop filename 1,
      line_number⟩, email)

/-- Events of one blameworker iteration: the get, the put of the blame
triple, and the task_done on the lines queue. -/
inductive BWEv where
  | got
  | putBlame
  | lineDone
deriving DecidableEq, Repr

/-- One blameworker iteration against the lines and blames queues.  The
source is: get, get_blame, put, task_done, with no exception handler, so a
raising lookup (lookupRes gives the outcome of the get_blame call,
e.g. OSError out of Popen) skips the put and the task_done and kills the
worker; the error component records the uncaught exception. -/
def blameworkerStep (lookupRes : String → Nat → Except PyErr String)
    (lines : PyQueue (String × Nat)) (blames : PyQueue (String × String × Nat)) :
    Option (PyQueue (String × Nat) × PyQueue (String × String × Nat) ×
      List BWEv × Option PyErr) :=
  match lines.get with
  | none => none
  | some ((filename, line_number), lines1) =>
    match lookupRes filename line_number with
    | .error e => some (lines1, blames, [.got], some e)
    | .ok blame =>
      let blames1 := blames.put (blame, filename, line_number)
      match lines1.task_done with
      | none => some (lines1, blames1, [.got, .putBlame], some .valueError)
      | some lines2 => some (lines2, blames1, [.got, .putBlame, .lineDone], none)

/-- os.path.join for the two-argument uses in main. -/
def pyJoin (path file : String) : String :=
  if strStartsWith file "/" then file
  else if path == "" then file
  else if strEndsWith path "/" then path ++ file
  else path ++ "/" ++ file

/-- The seeding loop of main: walk the tree, join path and file name, and
put the name on the filenames queue exactly when it ends in ".php". -/
def seedFilenames (walk : List (String × List String × List String)) : List String :=
  (walk.map (fun w =>
    (w.2.2.map (fun file => pyJoin w.1 file)).filter
      (fun filename => strEndsWith filename ".php"))).flatten

/-- Run the mailworker over a list of blame triples with a single worker,
threading the email local through iterations; stops (and the final join
never returns, so the run cannot exit) when an iteration raises. -/
def mailRunAll : Option String → List (String × String × Nat) → List SendEvent × Bool
  | _, [] => ([], true)
  | st, (blame, filename, line_number) :: rest =>
    match mailworkerStep st blame filename line_number with
    | .ok (s, email) =>
      let r := mailRunAll (some email) rest
      (s :: r.1, r.2)
    | .error _ => ([], false)

/-- The whole run of main under the sequential one-worker-per-stage
schedule: seed the filenames queue from the walk, expand every file
through the scan (fileLines gives each file body), annotate every line
task with the blame text (blameOf gives the subprocess output, which
get_blame returns unchanged), and run the mailworker over the results.
The Bool is true when every queue drains and main returns, i.e. the
process exits with code 0. -/
def runPipeline (walk : List (String × List String × List String))
    (fileLines : String → List String) (blameOf : String → Nat → String) :
    List SendEvent × Bool :=
  let filenames := seedFilenames walk
  let lineTasks := (filenames.map (fun f =>
    (gen_undocumented_public_methods (fileLines f)).map (fun r => (f, r.1)))).flatten
  let blameTasks := lineTasks.map (fun t => (blameOf t.1 t.2, t.1, t.2))
  mailRunAll none blameTasks

/-- Driver events inside the try block of main (lines 172-183): seeding
puts, pool starts and queue joins.  There is no quit call among them;
server.quit() appears only in the finally block. -/
inductive BodyEv where
  | putFile (filename : String)
  | startPool (which : Nat)
  | joinQueue (which : Nat)
deriving DecidableEq, Repr

/-- Events of the whole of main: the body events of the try block plus the
release of the SMTP channel. -/
inductive RunEv where
  | body (e : BodyEv)
  | quit
deriving DecidableEq, Repr

/-- The try/finally of main: whatever trace and outcome the body produced,
normal or exceptional, server.quit() runs next, exactly once, and the
outcome is passed through. -/
def mainTryFinally (body : List BodyEv × Except PyErr Unit) :
    List RunEv × Except PyErr Unit :=
  ((body.1.map RunEv.body) ++ [RunEv.quit], body.2)

/-- Where a Dispatch worker stands inside the body of one iteration of the
with-lock block: before acquiring, holding the lock before sendmail,
inside the sendmail call, after sendmail but before release. -/
inductive MPhase where
  | outside
  | held
  | sending
  | sent
deriving DecidableEq, Repr

/-- Pointwise update of a phase assignment. -/
def updPhase (f : Nat → MPhase) (w : Nat) (p : MPhase) : Nat → MPhase :=
  fun n => if n = w then p else f n

/-- Shared state of the Dispatch workers around the lock: who holds the
RLock (no worker in this code re-enters it) and each worker's phase. -/
structure LockState where
  owner : Option Nat
  phase : Nat → MPhase

/-- Interleaved execution of the with-lock block of mailworker, one atomic
transition at a time: a worker may acquire the free lock, start sendmail
while holding it, finish sendmail, and release on exit from the with
block.  The per-worker order acquire, sendmail, release is the structure
of the source; which worker moves at each step is unconstrained. -/
inductive LockStep : LockState → LockState → Prop where
  | acquire (s : LockState) (w : Nat) :
      s.phase w = .outside → s.owner = none →
      LockStep s ⟨some w, updPhase s.phase w .held⟩
  | sendStart (s : LockState) (w : Nat) :
      s.phase w = .held →
      LockStep s ⟨s.owner, updPhase s.phase w .sending⟩
  | sendEnd (s : LockState) (w : Nat) :
      s.phase w = .sending →
      LockStep s ⟨s.owner, updPhase s.phase w .sent⟩
  | release (s : LockState) (w : Nat) :
      s.phase w = .sent →
      LockStep s ⟨none, updPhase s.phase w .outside⟩

/-- Initial state: the lock is free and every worker is outside the with
block. -/
def initLockState : LockState :=
  ⟨none, fun _ => .outside⟩

/-- States reachable by interleaving Dispatch workers from the initial
state. -/
inductive LockReachable : LockState → Prop where
  | init : LockReachable initLockState
  | step (s t : LockState) : LockReachable s → LockStep s t → LockReachable t

/-- The inductive invariant: any worker that is anywhere inside the with
block is the owner of the lock. -/
def lockInv (s : LockState) : Prop :=
  ∀ w, s.phase w ≠ .outside → s.owner = some w

theorem runOps_counts (ops : List QOp) :
    ∀ q q' : PyQueue Nat, runOps ops q = some q' →
      q'.unfinished_tasks + cDone ops = q.unfinished_tasks + cEnq ops ∧
      q'.items.length + cDeq ops = q.items.length + cEnq ops := by
  induction ops with
  | nil =>
    intro q q' h
    simp [runOps] at h
    subst h
    simp [cEnq, cDeq, cDone]
  | cons op ops ih =>
    intro q q' h
    cases op with
    | enq x =>
      simp [runOps, applyOp] at h
      have := ih _ _ h
      simp [cEnq, cDeq, cDone, List.countP_cons, PyQueue.put] at *
      omega
    | deq =>
      simp [runOps, applyOp, PyQueue.get] at h
      cases hq : q.items with
      | nil => rw [hq] at h; simp at h
      | cons x xs =>
        rw [hq] at h
        simp at h
        have := ih _ _ h
        simp [cEnq, cDeq, cDone, List.countP_cons, hq] at *
        omega
    | done =>
      simp [runOps, applyOp, PyQueue.task_done] at h
      cases hu : q.unfinished_tasks with
      | zero => rw [hu] at h; simp at h
      | succ u =>
        rw [hu] at h
        simp at h
        have := ih _ _ h
        simp [cEnq, cDeq, cDone, List.countP_cons] at *
        omega

/-- C2: for every interleaved sequence of enqueue, dequeue and mark_done
operations on one WorkQueue that runs without blocking or error, the
pending count (unfinished_tasks) equals the number of enqueued items not
yet marked done; wait_until_drained (join) returns exactly when that count
is zero; and whenever it returns, every dequeued item has been marked done,
so it never returns while a dequeued-but-not-done item exists. -/
theorem C2_pending_invariant_and_drain (ops : List QOp) (q' : PyQueue Nat)
    (h : runOps ops (PyQueue.mk [] 0) = some q') :
    q'.unfinished_tasks + cDone ops = cEnq ops ∧
    (q'.joinReturns = true ↔ q'.unfinished_tasks = 0) ∧
    (q'.joinReturns = true → cDeq ops ≤ cDone ops) := by
  have hc := runOps_counts ops _ _ h
  simp at hc
  refine ⟨hc.1, by simp [PyQueue.joinReturns], ?_⟩
  intro hj
  simp [PyQueue.joinReturns] at hj
  omega

/-- Witness for C2 at the concrete run enqueue 0, dequeue, mark_done. -/
theorem C2_pending_invariant_and_drain_witness :
    (PyQueue.mk ([] : List Nat) 0).unfinished_tasks +
        cDone [QOp.enq 0, QOp.deq, QOp.done] = cEnq [QOp.enq 0, QOp.deq, QOp.done] ∧
    ((PyQueue.mk ([] : List Nat) 0).joinReturns = true ↔
        (PyQueue.mk ([] : List Nat) 0).unfinished_tasks = 0) ∧
    ((PyQueue.mk ([] : List Nat) 0).joinReturns = true →
        cDeq [QOp.enq 0, QOp.deq, QOp.done] ≤ cDone [QOp.enq 0, QOp.deq, QOp.done]) :=
  C2_pending_invariant_and_drain [QOp.enq 0, QOp.deq, QOp.done] (PyQueue.mk [] 0)
    (by decide)

theorem yieldCond_comment_end (a : String) (h : (pyStrip a == COMMENT_END) = true) :
    yieldCond a = false := by
  have h1 : pyStrip a = COMMENT_END := by simpa using h
  simp only [yieldCond, h1]
  decide

theorem prevNotCommentEnd_cons (hc hc' : Bool) (a : String) (as : List String)
    (h : (pyStrip a == COMMENT_END) = hc') (j : Nat) :
    prevNotCommentEnd hc (a :: as) (j + 1) = prevNotCommentEnd hc' as j := by
  cases j with
  | zero => simp [prevNotCommentEnd, ← h]
  | succ k => rfl

theorem specCell_cons (i0 : Nat) (hc hc' : Bool) (a : String) (as : List String)
    (h : (pyStrip a == COMMENT_END) = hc') (j : Nat) :
    specCell i0 hc (a :: as) (j + 1) = specCell (i0 + 1) hc' as j := by
  simp only [specCell, List.get?_cons_succ, prevNotCommentEnd_cons hc hc' a as h j]
  cases as.get? j with
  | none => rfl
  | some l =>
    simp only [Nat.add_succ, Nat.succ_add]

theorem genUndocGo_eq (ls : List String) : ∀ (i0 : Nat) (hc : Bool),
    genUndocGo i0 hc ls = (List.range ls.length).filterMap (specCell i0 hc ls) := by
  induction ls with
  | nil => intro i0 hc; simp [genUndocGo]
  | cons a as ih =>
    intro i0 hc
    rw [List.length_cons, List.range_succ_eq_map, List.filterMap_cons]
    cases hstr : (pyStrip a == COMMENT_END) with
    | true =>
      have hy : yieldCond a = false := yieldCond_comment_end a hstr
      have h0 : specCell i0 hc (a :: as) 0 = none := by
        simp [specCell, hy]
      have htail : (List.range as.length).filterMap (specCell i0 hc (a :: as) ∘ Nat.succ) =
          genUndocGo (i0 + 1) true as := by
        rw [ih (i0 + 1) true]
        congr 1
        funext j
        exact specCell_cons i0 hc true a as hstr j
      rw [h0, List.filterMap_map, htail]
      simp [genUndocGo, hstr]
    | false =>
      have h0 : specCell i0 hc (a :: as) 0 =
          (if !hc && yieldCond a then some (i0, a) else none) := by
        simp only [specCell, List.get?_cons_zero, prevNotCommentEnd, Nat.add_zero]
        rw [Bool.and_comm]
      have htail : (List.range as.length).filterMap (specCell i0 hc (a :: as) ∘ Nat.succ) =
          genUndocGo (i0 + 1) false as := by
        rw [ih (i0 + 1) false]
        congr 1
        funext j
        exact specCell_cons i0 hc false a as hstr j
      rw [h0, List.filterMap_map, htail]
      simp only [genUndocGo, hstr, Bool.false_eq_true, if_false]
      cases hcnd : (!hc && yieldCond a) <;> simp

/-- C7 counterexample: the code and the claim disagree on two concrete
files.  With a blank line between the marker and the declaration the code
reports the declaration (the flag is reset by the blank line) while the
claim, which skips blank lines, does not; and a line whose first token is
"public" but which lacks the token "function" is never reported by the
code although the claim says it is. -/
theorem C7_counterexample :
    gen_undocumented_public_methods ["*/", "", "public function foo()"] ≠
      specScanClaim ["*/", "", "public function foo()"] ∧
    gen_undocumented_public_methods ["public foo"] ≠ specScanClaim ["public foo"] := by
  decide

/-- C7 amended: the scan reports exactly the pairs (j, line j) such that
the stripped line has first token "public", contains the token "function",
has no token starting with "__", and either j = 0 or the immediately
preceding line, blank or not, does not strip to the end-of-comment
marker. -/
theorem C7_scan_characterisation (contents : List String) :
    gen_undocumented_public_methods contents = genUndocSpecAmended contents :=
  genUndocGo_eq contents 0 false

/-- C3: for every file a fileworker iteration performs exactly k enqueues
into the Enrichment (lines) queue, where k is the number of scan results,
performs exactly one task_done on the Discovery (filenames) queue, and the
task_done is the last event, hence after all k enqueues; in particular the
zero-output case still gets exactly one task_done. -/
theorem C3_fanout_invariant (filename : String) (contents : List String) :
    ((fileworkerEvents filename contents).filter isPutLine).length =
      (gen_undocumented_public_methods contents).length ∧
    ((fileworkerEvents filename contents).filter isFileDone).length = 1 ∧
    (fileworkerEvents filename contents).getLast? = some FWEvent.fileDone := by
  refine ⟨?_, ?_, ?_⟩
  · simp [fileworkerEvents, List.filter_append, List.filter_map, isPutLine,
      Function.comp]
  · simp [fileworkerEvents, List.filter_append, List.filter_map, isFileDone,
      Function.comp]
  · rw [fileworkerEvents, List.getLast?_concat]

theorem lockInv_init : lockInv initLockState := by
  intro w h
  simp [initLockState] at h

theorem lockInv_step (s t : LockState) (hs : lockInv s) (hst : LockStep s t) :
    lockInv t := by
  cases hst with
  | acquire w hw hown =>
    intro v hv
    by_cases hvw : v = w
    · subst hvw; rfl
    · simp only [updPhase, if_neg hvw] at hv
      have h1 := hs v hv
      rw [hown] at h1
      exact absurd h1 (by simp)
  | sendStart w hw =>
    intro v hv
    by_cases hvw : v = w
    · subst hvw
      exact hs v (by simp [hw])
    · simp only [updPhase, if_neg hvw] at hv
      exact hs v hv
  | sendEnd w hw =>
    intro v hv
    by_cases hvw : v = w
    · subst hvw
      exact hs v (by simp [hw])
    · simp only [updPhase, if_neg hvw] at hv
      exact hs v hv
  | release w hw =>
    intro v hv
    by_cases hvw : v = w
    · subst hvw
      simp [updPhase] at hv
    · simp only [updPhase, if_neg hvw] at hv
      have h1 := hs v hv
      have h2 := hs w (by simp [hw])
      rw [h1] at h2
      simp at h2
      exact absurd h2 hvw

theorem lockInv_reachable (s : LockState) (h : LockReachable s) : lockInv s := by
  induction h with
  | init => exact lockInv_init
  | step s t _ hst ih => exact lockInv_step s t ih hst

/-- C4: in every reachable interleaving of Dispatch workers, a worker whose
sendmail call is in progress holds the lock, so sendmail is only ever
invoked while holding the lock, and no two sendmail invocations by
distinct workers overlap in time. -/
theorem C4_sendmail_mutual_exclusion (s : LockState) (h : LockReachable s) :
    (∀ w, s.phase w = MPhase.sending → s.owner = some w) ∧
    (∀ w1 w2, s.phase w1 = MPhase.sending → s.phase w2 = MPhase.sending → w1 = w2) := by
  have hinv := lockInv_reachable s h
  constructor
  · intro w hw
    exact hinv w (by simp [hw])
  · intro w1 w2 h1 h2
    have e1 := hinv w1 (by simp [h1])
    have e2 := hinv w2 (by simp [h2])
    rw [e1] at e2
    exact Option.some.inj e2

/-- Witness for C4: after worker 0 acquires the lock and starts sendmail,
the reached state satisfies the theorem, so worker 0 owns the lock. -/
theorem C4_sendmail_mutual_exclusion_witness :
    (LockState.mk (some 0)
      (updPhase (updPhase (fun _ => MPhase.outside) 0 MPhase.held) 0 MPhase.sending)).owner =
      some 0 := by
  have h1 : LockStep initLockState ⟨some 0, updPhase initLockState.phase 0 .held⟩ :=
    LockStep.acquire initLockState 0 rfl rfl
  have hr1 : LockReachable ⟨some 0, updPhase initLockState.phase 0 .held⟩ :=
    LockReachable.step _ _ LockReachable.init h1
  have h2 : LockStep (⟨some 0, updPhase initLockState.phase 0 .held⟩ : LockState)
      ⟨some 0, updPhase (updPhase initLockState.phase 0 .held) 0 .sending⟩ :=
    LockStep.sendStart _ 0 (by simp [updPhase])
  have hr2 := LockReachable.step _ _ hr1 h2
  exact (C4_sendmail_mutual_exclusion _ hr2).1 0 (by simp [updPhase])

/-- C8: the try/finally of main releases the SMTP channel by server.quit()
exactly once, whether the body (seeding, pool starts, drain waits)
returned normally or raised, and the body outcome is otherwise passed
through unchanged. -/
theorem C8_quit_exactly_once (evs : List BodyEv) (r : Except PyErr Unit) :
    (mainTryFinally (evs, r)).1.count RunEv.quit = 1 ∧
    (mainTryFinally (evs, r)).2 = r := by
  refine ⟨?_, rfl⟩
  have h0 : (evs.map RunEv.body).count RunEv.quit = 0 := by
    rw [List.count_eq_zero]
    intro hmem
    rcases List.mem_map.mp hmem with ⟨e, _, he⟩
    cases he
  simp [mainTryFinally, List.count_append, h0]

/-- C10: every file name the seeding loop of main enqueues into the
Discovery (filenames) queue ends in ".php". -/
theorem C10_only_php_seeded (walk : List (String × List String × List String))
    (filename : String) (h : filename ∈ seedFilenames walk) :
    strEndsWith filename ".php" = true := by
  simp only [seedFilenames, List.mem_flatten, List.mem_map] at h
  obtain ⟨l, ⟨w, hw, rfl⟩, hmem⟩ := h
  exact (List.mem_filter.mp hmem).2

/-- Witness for C10 on a one-directory walk containing a.php. -/
theorem C10_only_php_seeded_witness :
    strEndsWith "./a.php" ".php" = true :=
  C10_only_php_seeded [(".", [], ["a.php"])] "./a.php" (by decide)

/-- C5 counterexample: for a subprocess that exits 1 with empty output —
exit status non-zero and no identity parseable — get_blame raises nothing
at all: it returns the empty output as a success.  The claim that it
raises LookupError exactly on such inputs is false. -/
theorem C5_counterexample :
    get_blame "a.php" 3 (SubprocResult.mk 1 "") = Except.ok "" ∧
    firstAuthorMail "" = none ∧
    ((1 : Int) = 0 → False) := by
  exact ⟨rfl, by decide, by decide⟩

/-- C5 amended: get_blame returns the raw captured stdout of the
subprocess unchanged, for every exit status and every output; it never
raises LookupError (its only error branch, a ValueError on a None read,
is unreachable because read() always yields a string), and identity
parsing is deferred to the Dispatch worker. -/
theorem C5_get_blame_returns_raw (filename : String) (line_number : Nat)
    (r : SubprocResult) :
    get_blame filename line_number r = Except.ok r.stdout := rfl

/-- C9: when no line of the blame text matches the author-mail pattern,
the local variable email is never assigned in that iteration: with no
previous value the worker raises NameError, and with a previous value the
notification is sent to the identity extracted from the earlier task. -/
theorem C9_unbound_email_local (blame filename : String) (line_number : Nat)
    (h : ∀ l ∈ pySplitChar blame '\n', extractAuthorMail l = none) :
    mailworkerStep none blame filename line_number = Except.error PyErr.nameError ∧
    (∀ prev, mailworkerStep (some prev) blame filename line_number =
      Except.ok (⟨ME, prev, (pySplitChar prev '@').headD "",
        "www" ++ strDrop filename 1, line_number⟩, prev)) := by
  have hf : firstAuthorMail blame = none := by
    rw [firstAuthorMail, List.findSome?_eq_none_iff]
    exact h
  constructor
  · simp [mailworkerStep, hf]
  · intro prev
    simp [mailworkerStep, hf]

/-- Witness for C9 on a blame text with no author-mail line. -/
theorem C9_unbound_email_local_witness :
    mailworkerStep none "fatal: bad revision" "./a.php" 3 =
      Except.error PyErr.nameError :=
  (C9_unbound_email_local "fatal: bad revision" "./a.php" 3 (by decide)).1

/-- C1 counterexample: a blameworker whose get_blame call raises (here an
OSError out of Popen) performs no task_done for the dequeued task and does
not continue its loop: its event trace is the bare get, the error
propagates, and the lines queue can never drain. -/
theorem C1_counterexample :
    blameworkerStep (fun _ _ => Except.error PyErr.osError)
        (PyQueue.mk [("./a.php", 3)] 1) (PyQueue.mk [] 0) =
      some (PyQueue.mk [] 1, PyQueue.mk [] 0, [BWEv.got], some PyErr.osError) ∧
    [BWEv.got].count BWEv.lineDone = 0 ∧
    (PyQueue.mk ([] : List (String × Nat)) 1).joinReturns = false := by
  exact ⟨rfl, by decide, by decide⟩

/-- C1 amended: the worker loops have no exception handler, so if the
transform raises, the worker does not call task_done for that task, its
loop terminates with the exception, the pending count of the source queue
is not decremented, and a queue with such a task pending can never report
drained. -/
theorem C1_uncaught_transform_error (lookupRes : String → Nat → Except PyErr String)
    (lines : PyQueue (String × Nat)) (blames : PyQueue (String × String × Nat))
    (filename : String) (line_number : Nat) (tl : List (String × Nat)) (e : PyErr)
    (hitems : lines.items = (filename, line_number) :: tl)
    (hlook : lookupRes filename line_number = Except.error e) :
    blameworkerStep lookupRes lines blames =
      some (PyQueue.mk tl lines.unfinished_tasks, blames, [BWEv.got], some e) ∧
    [BWEv.got].count BWEv.lineDone = 0 ∧
    (lines.unfinished_tasks ≠ 0 →
      (PyQueue.mk tl lines.unfinished_tasks).joinReturns = false) := by
  obtain ⟨items, u⟩ := lines
  simp only at hitems
  subst hitems
  refine ⟨?_, by decide, ?_⟩
  · simp [blameworkerStep, PyQueue.get, hlook]
  · intro hne
    simpa [PyQueue.joinReturns] using hne

/-- Witness for C1 amended: one failing lookup on a queue with pending
count 2 leaves the count at 2 and the queue undrainable. -/
theorem C1_uncaught_transform_error_witness :
    blameworkerStep (fun _ _ => Except.error PyErr.lookupError)
        (PyQueue.mk [("./b.php", 5)] 2) (PyQueue.mk [] 0) =
      some (PyQueue.mk [] 2, PyQueue.mk [] 0, [BWEv.got], some PyErr.lookupError) ∧
    (PyQueue.mk ([] : List (String × Nat)) 2).joinReturns = false :=
  ⟨(C1_uncaught_transform_error (fun _ _ => Except.error PyErr.lookupError)
      (PyQueue.mk [("./b.php", 5)] 2) (PyQueue.mk [] 0)
      "./b.php" 5 [] PyErr.lookupError rfl rfl).1,
   (C1_uncaught_transform_error (fun _ _ => Except.error PyErr.lookupError)
      (PyQueue.mk [("./b.php", 5)] 2) (PyQueue.mk [] 0)
      "./b.php" 5 [] PyErr.lookupError rfl rfl).2.2 (by decide)⟩

/-- C6 counterexample: with the walk yielding a.src and b.src, a file body
whose scan finds line 3 and a lookup answering for it, the run performs no
notification call at all — the seeding loop admits only names ending in
".php", so neither file ever enters the pipeline — refuting the claimed
single notification for a.src. -/
theorem C6_counterexample :
    (runPipeline [(".", [], ["a.src", "b.src"])]
        (fun _ => ["", "", "", "public function foo()"])
        (fun _ _ => "author-mail <alice@fb.com>")).1.length = 0 ∧
    ¬((runPipeline [(".", [], ["a.src", "b.src"])]
        (fun _ => ["", "", "", "public function foo()"])
        (fun _ _ => "author-mail <alice@fb.com>")).1.length = 1) := by
  decide

/-- C6 amended: run the same scenario over files the seeding admits
(a.php with an undocumented public function at line 3, b.php empty) and a
blame output carrying author-mail alice@fb.com; the run performs exactly
one sendmail, from ME to alice@fb.com about line 3 of the rewritten path
of a.php, performs none for b.php, and main returns so the process exits
with code 0. -/
theorem C6_endtoend_amended :
    runPipeline [(".", [], ["a.php", "b.php"])]
      (fun f => if f == "./a.php" then ["", "", "", "public function foo()"] else [])
      (fun f n => if f == "./a.php" && n == 3 then "author-mail <alice@fb.com>" else "") =
    ([SendEvent.mk ME "alice@fb.com" "alice" "www/a.php" 3], true) := by
  decide

end Docboy
